import Mathlib

/-!
Verification development for the Electron main-process supervisor of the
rice-scanner desktop application (file
`src/rice_webapp_frontend/src/utils/pdfGenerator.js`, electron main section).

The JavaScript main process is shallowly embedded: its module-level mutable
variables become fields of explicit state structures, its event handlers and
IPC handlers become a step function over an inductive event type, and a run
of the application processes a list of events by folding the step function.
All code runs on a single event loop, so one event is processed atomically
up to the first `await`, which the embedding mirrors.
-/

namespace RiceApp

/-! ## Update Coordinator

Embeds the auto-update wiring:

* config flags `isDev` (`process.env.NODE_ENV === 'development'`) and
  `isPackaged` (`app.isPackaged`), fixed for a run;
* module state `lastUpdateCheckResult` and `isCheckingForUpdate`;
* the `autoUpdater.on(...)` event handlers
  (`checking-for-update`, `update-available`, `update-not-available`,
  `error`, `download-progress`, `update-downloaded`);
* `checkForUpdates()` and the IPC handlers `update:check`,
  `update:download`, `update:install`, `update:getLastCheckResult`.

`autoUpdater.autoDownload = false` is set at module load, so the wrapped
updater never starts a download on its own; the only call site of
`autoUpdater.downloadUpdate()` in the repository is the `update:download`
IPC handler.  The embedding therefore marks a download as started exactly
when that handler reaches the `downloadUpdate` call.
-/

/-- Version/release metadata carried by updater events
(`info.version`, `info.releaseNotes`, `info.releaseDate`). -/
structure UpdateInfo where
  version : String
  releaseNotes : String
  releaseDate : String
deriving DecidableEq, Repr

/-- The retained `lastUpdateCheckResult` value: the `update-available`
handler stores `{available: true, info}`, the `update-not-available`
handler stores `{available: false, currentVersion}`. -/
inductive LastResult
  | availableRes (info : UpdateInfo)
  | notAvailableRes (currentVersion : String)
deriving DecidableEq, Repr

/-- Per-run configuration: `isPackaged` is `app.isPackaged`,
`isDev` is `process.env.NODE_ENV === 'development'`. -/
structure UpdCfg where
  isPackaged : Bool
  isDev : Bool
deriving DecidableEq, Repr

/-- Coordinator state.  `checking` is the module variable
`isCheckingForUpdate`, `lastResult` is `lastUpdateCheckResult`
(`none` = JS `null`).  `inFlight` counts library check operations the
main process has started and not yet seen complete — a history variable
for the single-flight property.  `enteredAvailable` records that an
`update-available` event has fired at some point; `downloadStarted`
records that `autoUpdater.downloadUpdate()` has been invoked;
`installCalled` records that `autoUpdater.quitAndInstall` has been
invoked.  These three are history variables, written but never read by
the embedded code. -/
structure UpdState where
  checking : Bool
  lastResult : Option LastResult
  inFlight : Nat
  enteredAvailable : Bool
  downloadStarted : Bool
  installCalled : Bool
deriving DecidableEq, Repr

/-- Module-load state: `lastUpdateCheckResult = null`,
`isCheckingForUpdate = false`, nothing has happened yet. -/
def initUpdState : UpdState :=
  { checking := false
    lastResult := none
    inFlight := 0
    enteredAvailable := false
    downloadStarted := false
    installCalled := false }

/-- Events driving the coordinator: IPC requests from the renderer (or the
staggered timers, which call the same `checkForUpdates` function) and
callbacks fired by the wrapped `electron-updater` client. -/
inductive UpdEvent
  | checkTrigger
  | downloadRequest
  | installRequest
  | evUpdateAvailable (info : UpdateInfo)
  | evUpdateNotAvailable (info : UpdateInfo)
  | evError (message : String)
  | evDownloadProgress (percent : Nat)
  | evUpdateDownloaded (info : UpdateInfo)
deriving DecidableEq, Repr

/-- Value returned to the requester by a handler, when one is produced. -/
inductive UpdReply
  | checkSkipped (message : String)
  | checkStarted
  | downloadRejected (message : String)
  | downloadForwarded
  | installRejected (message : String)
  | installForwarded
deriving DecidableEq, Repr

/-- One event-loop turn of the coordinator.

* `checkTrigger` is `checkForUpdates()`:
  `if (!isPackaged) return {available:false, message:'Development mode'}`;
  `if (isCheckingForUpdate) return {available:false, message:'Check in progress'}`;
  otherwise it calls `autoUpdater.checkForUpdates()`, whose
  `checking-for-update` callback sets `isCheckingForUpdate = true`
  synchronously in the same turn.
* `downloadRequest` is the `update:download` handler:
  `if (!isPackaged || isDev) throw new Error('Updates only available in production')`;
  otherwise it calls `autoUpdater.downloadUpdate()` — with no guard on
  `lastUpdateCheckResult`.
* `installRequest` is the `update:install` handler, same guard, then
  `autoUpdater.quitAndInstall`.
* `evUpdateAvailable` sets `isCheckingForUpdate = false` and stores
  `{available: true, info}`.
* `evUpdateNotAvailable` sets `isCheckingForUpdate = false` and stores
  `{available: false, currentVersion: info.version}`.
* `evError` sets `isCheckingForUpdate = false` and leaves
  `lastUpdateCheckResult` untouched.
* `evDownloadProgress` / `evUpdateDownloaded` only broadcast to the
  renderer; they touch no module state. -/
def updStep (cfg : UpdCfg) (s : UpdState) : UpdEvent → UpdState × Option UpdReply
  | .checkTrigger =>
      if cfg.isPackaged = false then
        (s, some (.checkSkipped "Development mode"))
      else if s.checking = true then
        (s, some (.checkSkipped "Check in progress"))
      else
        ({ s with checking := true, inFlight := s.inFlight + 1 },
         some .checkStarted)
  | .downloadRequest =>
      if cfg.isPackaged = false ∨ cfg.isDev = true then
        (s, some (.downloadRejected "Updates only available in production"))
      else
        ({ s with downloadStarted := true }, some .downloadForwarded)
  | .installRequest =>
      if cfg.isPackaged = false ∨ cfg.isDev = true then
        (s, some (.installRejected "Updates only available in production"))
      else
        ({ s with installCalled := true }, some .installForwarded)
  | .evUpdateAvailable info =>
      ({ s with checking := false
                inFlight := s.inFlight - 1
                lastResult := some (.availableRes info)
                enteredAvailable := true }, none)
  | .evUpdateNotAvailable info =>
      ({ s with checking := false
                inFlight := s.inFlight - 1
                lastResult := some (.notAvailableRes info.version) }, none)
  | .evError _ =>
      ({ s with checking := false, inFlight := s.inFlight - 1 }, none)
  | .evDownloadProgress _ => (s, none)
  | .evUpdateDownloaded _ => (s, none)

/-- Run the coordinator over a list of events from a given state. -/
def updRunFrom (cfg : UpdCfg) (s : UpdState) : List UpdEvent → UpdState
  | [] => s
  | e :: es => updRunFrom cfg (updStep cfg s e).1 es

/-- Run the coordinator over a list of events from module-load state. -/
def updRun (cfg : UpdCfg) (es : List UpdEvent) : UpdState :=
  updRunFrom cfg initUpdState es

/-- The `update:getLastCheckResult` IPC handler: a pure read of
`lastUpdateCheckResult`. -/
def getLastCheckResult (s : UpdState) : Option LastResult :=
  s.lastResult

/-- Inductive invariant of the coordinator: `isCheckingForUpdate` can only
be set in a packaged build, and the number of library check operations in
flight is `1` exactly while `isCheckingForUpdate` holds. -/
def UpdInv (cfg : UpdCfg) (s : UpdState) : Prop :=
  (s.checking = true → cfg.isPackaged = true) ∧
    s.inFlight = (if s.checking = true then 1 else 0)

/-! ## Child Process Supervisor — teardown

Embeds `killProcessTree(pid)` and `cleanupProcesses()`.

`killProcessTree` on Windows runs `execSync('taskkill /pid <pid> /T /F')`
(a forceful tree-kill); on other platforms it runs
`process.kill(pid, 'SIGTERM')` (a direct signal to the single pid).
If that first call throws, the `catch` logs a warning and tries
`process.kill(pid, 'SIGKILL')`, whose own failure is caught and logged.
Nothing escapes the function.

The OS outcome of each kill primitive is an input (`KillEnv`); each
primitive is modelled as returning `Except`, and the embedded functions
propagate or catch exactly as the JavaScript `try`/`catch` structure
does, additionally recording the sequence of attempted kill actions and
the warnings logged.

Process handles are modelled as `Option Nat`: `none` is a `null`
variable; `some p` is a stored `ChildProcess` whose `pid` field is `p`,
with `p = 0` standing for a `ChildProcess` whose `pid` is `undefined`
(the value Node gives when the spawn itself failed, until the `error`
event handler nulls the variable).  JavaScript truthiness of `pid`
(`if (!pid)`, `backendProcess && backendProcess.pid`) is `p ≠ 0`. -/

/-- `process.platform` as far as the teardown code distinguishes it. -/
inductive Plat
  | win32
  | other
deriving DecidableEq, Repr

/-- OS outcomes for one `killProcessTree` invocation: whether each kill
primitive the code may attempt would throw. -/
structure KillEnv where
  plat : Plat
  treeKillFails : Bool
  sigtermFails : Bool
  sigkillFails : Bool
deriving DecidableEq, Repr

/-- A kill attempt made against the OS. -/
inductive KillAction
  | treeKill (pid : Nat)
  | sigterm (pid : Nat)
  | sigkill (pid : Nat)
deriving DecidableEq, Repr

/-- `execSync('taskkill /pid <pid> /T /F')`. -/
def execTaskkill (env : KillEnv) (_pid : Nat) : Except String Unit :=
  if env.treeKillFails then .error "taskkill failed" else .ok ()

/-- `process.kill(pid, 'SIGTERM')`. -/
def procKillTerm (env : KillEnv) (_pid : Nat) : Except String Unit :=
  if env.sigtermFails then .error "kill ESRCH" else .ok ()

/-- `process.kill(pid, 'SIGKILL')`. -/
def procKillKill (env : KillEnv) (_pid : Nat) : Except String Unit :=
  if env.sigkillFails then .error "kill ESRCH" else .ok ()

/-- Result of one teardown call: whether an exception escaped, the kill
actions attempted in order, and the warnings logged. -/
structure KillResult where
  outcome : Except String Unit
  actions : List KillAction
  warnings : List String
deriving Repr

/-- `killProcessTree(pid)`: `if (!pid) return;` then the platform branch
inside `try`, with the `catch` warning and attempting SIGKILL inside a
second `try` whose `catch` only warns. -/
def killProcessTree (env : KillEnv) (pid : Nat) : KillResult :=
  if pid = 0 then
    { outcome := .ok (), actions := [], warnings := [] }
  else
    let primary : Except String Unit × List KillAction :=
      match env.plat with
      | .win32 => (execTaskkill env pid, [.treeKill pid])
      | .other => (procKillTerm env pid, [.sigterm pid])
    match primary with
    | (.ok _, acts) =>
        { outcome := .ok (), actions := acts, warnings := [] }
    | (.error e, acts) =>
        match procKillKill env pid with
        | .ok _ =>
            { outcome := .ok ()
              actions := acts ++ [.sigkill pid]
              warnings := ["Failed to kill process: " ++ e] }
        | .error e2 =>
            { outcome := .ok ()
              actions := acts ++ [.sigkill pid]
              warnings := ["Failed to kill process: " ++ e,
                           "Failed to SIGKILL process: " ++ e2] }

/-- The two module variables holding child process handles. -/
structure ProcState where
  backendProcess : Option Nat
  scannerProcess : Option Nat
deriving DecidableEq, Repr

/-- Result of one `cleanupProcesses()` call. -/
structure CleanupResult where
  state : ProcState
  outcome : Except String Unit
  actions : List KillAction
deriving Repr

/-- Truthiness of `handle && handle.pid`. -/
def livePid : Option Nat → Option Nat
  | some p => if p = 0 then none else some p
  | none => none

/-- `cleanupProcesses()`: for each of the two slots, if the handle and its
pid are truthy, call `killProcessTree(pid)` and null the variable. -/
def cleanupProcesses (env : KillEnv) (s : ProcState) : CleanupResult :=
  let (s₁, a₁) :=
    match livePid s.backendProcess with
    | some p => ({ s with backendProcess := none },
                  (killProcessTree env p).actions)
    | none => (s, [])
  let (s₂, a₂) :=
    match livePid s₁.scannerProcess with
    | some p => ({ s₁ with scannerProcess := none },
                  (killProcessTree env p).actions)
    | none => (s₁, [])
  { state := s₂, outcome := .ok (), actions := a₁ ++ a₂ }

/-- Fold a sequence of `cleanupProcesses` calls (each with its own OS
outcomes) over a state. -/
def cleanupSeq (s : ProcState) : List KillEnv → ProcState
  | [] => s
  | env :: envs => cleanupSeq (cleanupProcesses env s).state envs

/-! ## Hardware Identity Provider

Embeds `getHardwareInfo()` and the `hardware:getId` IPC handler.

The three `execSync('wmic ...')` queries are the environment: each is
`none` when the call threw (the `catch` leaves the field `''`) and
`some raw` when it returned output `raw`, which the code parses with
`raw.split(/\r?\n/).map(s => s.trim()).filter(Boolean)[1] || ''`.

`crypto.createHash('sha256').update(fingerprint).digest('hex')` is
embedded by a full implementation of SHA-256 (FIPS 180-4) over the
UTF-8 bytes of the fingerprint, producing the lowercase hex digest, as
Node's `crypto` does. -/

namespace SHA256

/-- Truncate to a 32-bit word. -/
def w32 (x : Nat) : Nat := x % 4294967296

/-- Right rotation of a 32-bit word. -/
def rotr (n x : Nat) : Nat := w32 ((x <<< (32 - n)) ||| (x >>> n))

def bigSigma0 (x : Nat) : Nat := rotr 2 x ^^^ rotr 13 x ^^^ rotr 22 x

def bigSigma1 (x : Nat) : Nat := rotr 6 x ^^^ rotr 11 x ^^^ rotr 25 x

def smallSigma0 (x : Nat) : Nat := rotr 7 x ^^^ rotr 18 x ^^^ (x >>> 3)

def smallSigma1 (x : Nat) : Nat := rotr 17 x ^^^ rotr 19 x ^^^ (x >>> 10)

def ch (x y z : Nat) : Nat := (x &&& y) ^^^ ((x ^^^ 4294967295) &&& z)

def maj (x y z : Nat) : Nat := (x &&& y) ^^^ (x &&& z) ^^^ (y &&& z)

/-- The 64 round constants. -/
def K : List Nat :=
  [1116352408, 1899447441, 3049323471, 3921009573,
   961987163, 1508970993, 2453635748, 2870763221,
   3624381080, 310598401, 607225278, 1426881987,
   1925078388, 2162078206, 2614888103, 3248222580,
   3835390401, 4022224774, 264347078, 604807628,
   770255983, 1249150122, 1555081692, 1996064986,
   2554220882, 2821834349, 2952996808, 3210313671,
   3336571891, 3584528711, 113926993, 338241895,
   666307205, 773529912, 1294757372, 1396182291,
   1695183700, 1986661051, 2177026350, 2456956037,
   2730485921, 2820302411, 3259730800, 3345764771,
   3516065817, 3600352804, 4094571909, 275423344,
   430227734, 506948616, 659060556, 883997877,
   958139571, 1322822218, 1537002063, 1747873779,
   1955562222, 2024104815, 2227730452, 2361852424,
   2428436474, 2756734187, 3204031479, 3329325298]

/-- Working state / hash value: eight 32-bit words. -/
structure Hash where
  a : Nat
  b : Nat
  c : Nat
  d : Nat
  e : Nat
  f : Nat
  g : Nat
  h : Nat
deriving DecidableEq, Repr

/-- The initial hash value. -/
def initH : Hash :=
  { a := 1779033703, b := 3144134277, c := 1013904242, d := 2773480762,
    e := 1359893119, f := 2600822924, g := 528734635, h := 1541459225 }

/-- `n` bytes of `x`, big-endian. -/
def toBytesBE : Nat → Nat → List Nat
  | 0, _ => []
  | k + 1, x => toBytesBE k (x >>> 8) ++ [x % 256]

/-- Merkle–Damgård padding: append `0x80`, zero bytes up to 56 mod 64,
then the 64-bit big-endian bit length. -/
def pad (msg : List Nat) : List Nat :=
  let z := (119 - msg.length % 64) % 64
  msg ++ [0x80] ++ List.replicate z 0 ++ toBytesBE 8 (8 * msg.length)

/-- Big-endian 32-bit words from bytes. -/
def bytesToWords : List Nat → List Nat
  | x0 :: x1 :: x2 :: x3 :: rest =>
      (x3 ||| (x2 <<< 8) ||| (x1 <<< 16) ||| (x0 <<< 24)) :: bytesToWords rest
  | _ => []

/-- Split into 64-byte chunks. -/
def toChunks : List Nat → List (List Nat)
  | [] => []
  | x :: xs => (x :: xs).take 64 :: toChunks ((x :: xs).drop 64)
termination_by l => l.length
decreasing_by simp; omega

/-- One message-schedule extension step: append
`σ1(w[t-2]) + w[t-7] + σ0(w[t-15]) + w[t-16]`. -/
def wStep (w : List Nat) : List Nat :=
  let t := w.length
  w ++ [w32 (smallSigma1 (w.getD (t - 2) 0) + w.getD (t - 7) 0 +
              smallSigma0 (w.getD (t - 15) 0) + w.getD (t - 16) 0)]

/-- Extend the 16 chunk words by `n` scheduled words. -/
def extendW : Nat → List Nat → List Nat
  | 0, w => w
  | n + 1, w => extendW n (wStep w)

/-- One compression round with constant `k` and scheduled word `w`. -/
def compressStep (s : Hash) (kw : Nat × Nat) : Hash :=
  let t1 := w32 (s.h + bigSigma1 s.e + ch s.e s.f s.g + kw.1 + kw.2)
  let t2 := w32 (bigSigma0 s.a + maj s.a s.b s.c)
  { a := w32 (t1 + t2), b := s.a, c := s.b, d := s.c,
    e := w32 (s.d + t1), f := s.e, g := s.f, h := s.g }

/-- Process one 64-byte chunk. -/
def processChunk (h0 : Hash) (chunk : List Nat) : Hash :=
  let w := extendW 48 (bytesToWords chunk)
  let s := (K.zip w).foldl compressStep h0
  { a := w32 (h0.a + s.a), b := w32 (h0.b + s.b), c := w32 (h0.c + s.c),
    d := w32 (h0.d + s.d), e := w32 (h0.e + s.e), f := w32 (h0.f + s.f),
    g := w32 (h0.g + s.g), h := w32 (h0.h + s.h) }

/-- SHA-256 digest of a byte sequence, as eight 32-bit words. -/
def sha256 (msg : List Nat) : List Nat :=
  let hf := (toChunks (pad msg)).foldl processChunk initH
  [hf.a, hf.b, hf.c, hf.d, hf.e, hf.f, hf.g, hf.h]

/-- Lowercase hex digit, as `digest('hex')` prints it. -/
def hexChar (n : Nat) : Char := Nat.digitChar (n % 16)

/-- Eight lowercase hex digits of a 32-bit word, most significant
first. -/
def hexWord (w : Nat) : List Char :=
  [hexChar (w >>> 28), hexChar (w >>> 24), hexChar (w >>> 20),
   hexChar (w >>> 16), hexChar (w >>> 12), hexChar (w >>> 8),
   hexChar (w >>> 4), hexChar w]

/-- The 64 characters of the hex digest. -/
def sha256HexChars (msg : List Nat) : List Char :=
  ((sha256 msg).map hexWord).flatten

end SHA256

/-- The UTF-8 bytes of a string, as `hash.update(s)` consumes them. -/
def strBytes (s : String) : List Nat :=
  s.toUTF8.toList.map (fun b => b.toNat)

/-- `crypto.createHash('sha256').update(s).digest('hex')`. -/
def sha256Hex (s : String) : String :=
  String.mk (SHA256.sha256HexChars (strBytes s))

/-- Outcomes of the three independent `execSync('wmic ...')` queries:
`none` when the call threw. -/
structure HwEnv where
  uuidRaw : Option String
  baseboardRaw : Option String
  macRaw : Option String

/-- `raw.split(/\r?\n/).map(s => s.trim()).filter(Boolean)[1] || ''`:
split into lines, trim each (which also removes a carriage return left
by splitting on the line feed alone), drop empties, take the second
entry or the empty string. -/
def parseWmicField (raw : String) : String :=
  ((((raw.split (fun c => c = '\n')).map String.trim).filter
      (fun t => t ≠ "")).getD 1 "")

/-- One query's contribution to the fingerprint: the parsed field on
success, the empty string when the query threw. -/
def hwField : Option String → String
  | some raw => parseWmicField raw
  | none => ""

/-- `getHardwareInfo()` return value. -/
structure HwInfo where
  uuid : String
  baseboard : String
  mac : String
  fingerprint : String
  fpHash : String
deriving Repr

/-- `getHardwareInfo()`: parse the three queries (a throwing query
leaves its field `''`), concatenate as `` `${uuid}|${baseboard}|${mac}` ``,
and hash with SHA-256. -/
def getHardwareInfo (env : HwEnv) : HwInfo :=
  let uuid := hwField env.uuidRaw
  let baseboard := hwField env.baseboardRaw
  let mac := hwField env.macRaw
  let fingerprint := uuid ++ "|" ++ baseboard ++ "|" ++ mac
  { uuid := uuid, baseboard := baseboard, mac := mac,
    fingerprint := fingerprint, fpHash := sha256Hex fingerprint }

/-- JS `s.substring(0, n)` on an ASCII string: the first `n`
characters. -/
def jsSubstringTo (s : String) (n : Nat) : String :=
  String.mk (s.data.take n)

/-- JS `s.toUpperCase()` on an ASCII string: uppercase each
character. -/
def jsToUpperCase (s : String) : String :=
  String.mk (s.data.map Char.toUpper)

/-- The `hardware:getId` IPC handler:
`getHardwareInfo().fpHash.substring(0, 16).toUpperCase()`. -/
def hardwareGetId (env : HwEnv) : String :=
  jsToUpperCase (jsSubstringTo (getHardwareInfo env).fpHash 16)

/-- The sixteen lowercase hex digits, the alphabet of
`digest('hex')`. -/
def hexDigits : List Char :=
  "0123456789abcdef".data

/-- The sixteen uppercase hex digits. -/
def upperHexDigits : List Char :=
  "0123456789ABCDEF".data

/-! ## startBackend

`startBackend()` returns `new Promise((resolve, reject) => { ... })`
whose executor spawns the backend, wires `stdout`/`stderr` to the log,
installs `close` and `error` handlers that set `backendProcess = null`,
and schedules `setTimeout(() => resolve(), 3000)`.  `reject` is never
invoked, and the resolution neither waits on nor inspects the child.

The environment supplies the spawn outcome: the pid Node assigned
(`0` standing for an undefined pid, i.e. the spawn failed) and the
`error`/`close` events the child emits before the 3-second timer
fires. -/

/-- Child-process events the `startBackend` executor handles. -/
inductive BackendEvent
  | errorEvt
  | closeEvt (code : Int)
deriving DecidableEq, Repr

/-- Spawn outcome and pre-resolution child events. -/
structure BackendEnv where
  spawnPid : Nat
  events : List BackendEvent
deriving DecidableEq, Repr

/-- Observable outcome of one `startBackend()` call. -/
structure BackendStartResult where
  handle : Option Nat
  resolveDelayMs : Nat
  rejectCalled : Bool
deriving DecidableEq, Repr

/-- The `close` and `error` handlers both do nothing to the promise and
set `backendProcess = null`. -/
def applyBackendEvent : Option Nat → BackendEvent → Option Nat
  | _, .errorEvt => none
  | _, .closeEvt _ => none

/-- `startBackend()`: store the spawned handle, let the installed
handlers process whatever events arrive, and resolve unconditionally
after the fixed 3000 ms timer. -/
def startBackend (env : BackendEnv) : BackendStartResult :=
  { handle := env.events.foldl applyBackendEvent (some env.spawnPid)
    resolveDelayMs := 3000
    rejectCalled := false }

/-! ## Startup sequence — createWindow

`createWindow()` runs, in order:

1. `await startBackend()` — always resolves (theorem above);
2. an inner `try` that runs `await startScannerService()` (which always
   resolves: a missing entrypoint, a throwing spawn, and a child error
   all resolve) and then `await waitOn` against
   `http://127.0.0.1:8080/api/scanner/status` (timeout 15 s); the inner
   `catch` only logs;
3. `await waitOn` against `http://localhost:5000/health` (timeout 30 s);
   a rejection here reaches the outer `catch`, which calls
   `dialog.showErrorBox('Backend Error', ...)`, `app.quit()` and
   `return`s before the `BrowserWindow` is constructed.  Electron's
   `app.quit()` terminates the process with the default exit status 0 —
   nothing in the repository calls `app.exit` with a nonzero code;
4. otherwise it constructs the `BrowserWindow`, loads the renderer, and
   on `did-finish-load` schedules the staggered update checks.

The environment supplies the outcome of the two readiness probes. -/

/-- Observable startup actions, in program order. -/
inductive StartAction
  | backendSpawn
  | scannerSpawn
  | scannerProbe
  | backendProbe
  | showErrorDialog
  | quitApp
  | createBrowserWindow
  | scheduleUpdateChecks
deriving DecidableEq, Repr

/-- Probe outcomes for one startup attempt. -/
structure StartupEnv where
  scannerProbeOk : Bool
  backendProbeOk : Bool
deriving DecidableEq, Repr

/-- Observable outcome of one `createWindow()` call. -/
structure StartupResult where
  trace : List StartAction
  windowCreated : Bool
  dialogShown : Bool
  exitCode : Option Nat
deriving DecidableEq, Repr

/-- `createWindow()` as described above.  The scanner probe's outcome is
swallowed by the inner `catch`, so it affects only logging; the backend
probe's outcome selects between the fatal path and window creation. -/
def createWindow (env : StartupEnv) : StartupResult :=
  let afterBackendStart := [StartAction.backendSpawn]
  let afterScannerBlock :=
    afterBackendStart ++ [StartAction.scannerSpawn, StartAction.scannerProbe]
  let afterBackendWait := afterScannerBlock ++ [StartAction.backendProbe]
  if env.backendProbeOk then
    { trace := afterBackendWait
        ++ [StartAction.createBrowserWindow, StartAction.scheduleUpdateChecks]
      windowCreated := true
      dialogShown := false
      exitCode := none }
  else
    { trace := afterBackendWait
        ++ [StartAction.showErrorDialog, StartAction.quitApp]
      windowCreated := false
      dialogShown := true
      exitCode := some 0 }

/-! ## Lemmas and claim theorems -/

lemma updInv_init (cfg : UpdCfg) : UpdInv cfg initUpdState := by
  constructor <;> simp [initUpdState]

lemma updInv_step (cfg : UpdCfg) (s : UpdState) (e : UpdEvent)
    (h : UpdInv cfg s) : UpdInv cfg (updStep cfg s e).1 := by
  obtain ⟨h1, h2⟩ := h
  rcases cfg with ⟨p, d⟩
  cases e <;> cases p <;> cases d <;> cases hc : s.checking <;>
    simp_all [updStep, UpdInv]

lemma updInv_runFrom (cfg : UpdCfg) (s : UpdState) (es : List UpdEvent)
    (h : UpdInv cfg s) : UpdInv cfg (updRunFrom cfg s es) := by
  induction es generalizing s with
  | nil => exact h
  | cons e es ih => exact ih _ (updInv_step cfg s e h)

lemma updInv_run (cfg : UpdCfg) (es : List UpdEvent) :
    UpdInv cfg (updRun cfg es) :=
  updInv_runFrom cfg initUpdState es (updInv_init cfg)

lemma updRunFrom_append (cfg : UpdCfg) (s : UpdState)
    (es es₂ : List UpdEvent) :
    updRunFrom cfg s (es ++ es₂) = updRunFrom cfg (updRunFrom cfg s es) es₂ := by
  induction es generalizing s with
  | nil => rfl
  | cons e es ih => simp [updRunFrom, ih]

/-- Only the `update:download` handler, in a packaged non-development
build, ever reaches the `autoUpdater.downloadUpdate()` call. -/
lemma updStep_downloadStarted (cfg : UpdCfg) (s : UpdState) (e : UpdEvent)
    (h : (updStep cfg s e).1.downloadStarted = true) :
    s.downloadStarted = true ∨
      (e = .downloadRequest ∧ cfg.isPackaged = true ∧ cfg.isDev = false) := by
  rcases cfg with ⟨p, d⟩
  cases e <;> cases p <;> cases d <;> cases hc : s.checking <;>
    simp_all [updStep]

lemma downloadStarted_runFrom (cfg : UpdCfg) (s : UpdState)
    (es : List UpdEvent)
    (h : (updRunFrom cfg s es).downloadStarted = true) :
    s.downloadStarted = true ∨
      (cfg.isPackaged = true ∧ cfg.isDev = false ∧
        UpdEvent.downloadRequest ∈ es) := by
  induction es generalizing s with
  | nil => exact Or.inl h
  | cons e es ih =>
      rcases ih _ h with h' | ⟨hp, hd, hm⟩
      · rcases updStep_downloadStarted cfg s e h' with h'' | ⟨he, hp, hd⟩
        · exact Or.inl h''
        · exact Or.inr ⟨hp, hd, by simp [he]⟩
      · exact Or.inr ⟨hp, hd, by simp [hm]⟩

/-- C1 as stated is false on the code: the `update:download` handler only
checks `!isPackaged || isDev` and never consults `lastUpdateCheckResult`,
so in a packaged production build the single IPC request
`update:download`, sent before any check has run, reaches
`autoUpdater.downloadUpdate()` although no `update-available` event has
ever fired. -/
theorem C1_counterexample :
    ¬ ((updRun ⟨true, false⟩ [.downloadRequest]).downloadStarted = true →
        (updRun ⟨true, false⟩ [.downloadRequest]).enteredAvailable = true) := by
  decide

/-- C1 amended: a download is started only by an explicit
`update:download` request, and only in a packaged, non-development build —
never automatically by the updater events themselves (the repository sets
`autoUpdater.autoDownload = false` and contains no other call to
`downloadUpdate`).  The handler does not, however, require a prior
completed check to have reported an available update. -/
theorem C1_download_only_explicit (cfg : UpdCfg) (es : List UpdEvent)
    (h : (updRun cfg es).downloadStarted = true) :
    cfg.isPackaged = true ∧ cfg.isDev = false ∧
      UpdEvent.downloadRequest ∈ es := by
  rcases downloadStarted_runFrom cfg initUpdState es h with h' | h'
  · simp [initUpdState] at h'
  · exact h'

/-- Witness for C1: the amended theorem applied at a concrete run. -/
theorem C1_download_only_explicit_witness :
    (updRun ⟨true, false⟩ [.downloadRequest]).downloadStarted = true ∧
      ((UpdCfg.mk true false).isPackaged = true ∧
        (UpdCfg.mk true false).isDev = false ∧
        UpdEvent.downloadRequest ∈ [UpdEvent.downloadRequest]) :=
  ⟨by decide,
   C1_download_only_explicit ⟨true, false⟩ [.downloadRequest] (by decide)⟩

/-- C2: for every interleaving of automatic (staggered-timer) and manual
(IPC) check triggers — both call the same `checkForUpdates` function — at
most one check is in flight after any event sequence, and a
`checkForUpdates` call made while `isCheckingForUpdate` holds leaves the
state unchanged (starts no second check) and returns the
`{available: false, message: 'Check in progress'}` result. -/
theorem C2_single_flight (cfg : UpdCfg) (es : List UpdEvent) :
    (updRun cfg es).inFlight ≤ 1 ∧
      ((updRun cfg es).checking = true →
        updStep cfg (updRun cfg es) .checkTrigger
          = (updRun cfg es, some (.checkSkipped "Check in progress"))) := by
  obtain ⟨h1, h2⟩ := updInv_run cfg es
  constructor
  · rw [h2]; split <;> omega
  · intro hc
    have hp := h1 hc
    simp [updStep, hp, hc]

/-- Witness for C2: after a started check, a second trigger is skipped
with the in-progress result. -/
theorem C2_single_flight_witness :
    (updRun ⟨true, false⟩ [.checkTrigger]).checking = true ∧
      updStep ⟨true, false⟩ (updRun ⟨true, false⟩ [.checkTrigger])
          .checkTrigger
        = (updRun ⟨true, false⟩ [.checkTrigger],
            some (.checkSkipped "Check in progress")) :=
  ⟨by decide, (C2_single_flight ⟨true, false⟩ [.checkTrigger]).2 (by decide)⟩

/-- C7: the `autoUpdater.on('error')` handler clears only
`isCheckingForUpdate` and broadcasts; it leaves `lastUpdateCheckResult`
untouched, so an `available` result stored by an earlier check is still
returned by `update:getLastCheckResult` after a later failing check. -/
theorem C7_error_preserves_result (cfg : UpdCfg) (es : List UpdEvent)
    (msg : String) (info : UpdateInfo)
    (h : getLastCheckResult (updRun cfg es) = some (.availableRes info)) :
    getLastCheckResult (updRun cfg (es ++ [.evError msg]))
      = some (.availableRes info) := by
  unfold updRun at h ⊢
  rw [updRunFrom_append]
  simpa [updRunFrom, updStep, getLastCheckResult] using h

/-- Witness for C7: a completed available check, then a failing check. -/
theorem C7_error_preserves_result_witness :
    getLastCheckResult
        (updRun ⟨true, false⟩
          [.checkTrigger, .evUpdateAvailable ⟨"1.1.0", "notes", "today"⟩])
      = some (.availableRes ⟨"1.1.0", "notes", "today"⟩) ∧
    getLastCheckResult
        (updRun ⟨true, false⟩
          ([.checkTrigger, .evUpdateAvailable ⟨"1.1.0", "notes", "today"⟩]
            ++ [.evError "net down"]))
      = some (.availableRes ⟨"1.1.0", "notes", "today"⟩) :=
  ⟨by decide,
   C7_error_preserves_result ⟨true, false⟩
     [.checkTrigger, .evUpdateAvailable ⟨"1.1.0", "notes", "today"⟩]
     "net down" ⟨"1.1.0", "notes", "today"⟩ (by decide)⟩

/-- C9 as stated is false on the code: in a packaged build whose
environment is nonetheless `development` (`isPackaged ∧ isDev`, a build
satisfying the claim's "non-packaged or development"), `update:download`
rejects with `'Updates only available in production'` — yet
`checkForUpdates` does not return the development-mode result, because
its guard tests only `!isPackaged`; it starts a normal check instead. -/
theorem C9_counterexample :
    ((UpdCfg.mk true true).isPackaged = false ∨
        (UpdCfg.mk true true).isDev = true) ∧
      (updStep ⟨true, true⟩ initUpdState .downloadRequest).2
        = some (.downloadRejected "Updates only available in production") ∧
      (updStep ⟨true, true⟩ initUpdState .checkTrigger).2
        ≠ some (.checkSkipped "Development mode") := by
  decide

/-- C9 amended: `update:download` and `update:install` reject with
`'Updates only available in production'` exactly when the build is
non-packaged or development (`!isPackaged || isDev`), leaving the state
unchanged, while `checkForUpdates` resolves with the
`'Development mode'` unavailable result exactly when the build is
non-packaged — so the claimed asymmetry holds in every non-packaged
build, but in a packaged development build download/install reject while
`update:check` performs a normal check. -/
theorem C9_dev_guard_asymmetry (cfg : UpdCfg) (s : UpdState) :
    ((updStep cfg s .downloadRequest).2
        = some (.downloadRejected "Updates only available in production")
      ↔ (cfg.isPackaged = false ∨ cfg.isDev = true)) ∧
    ((updStep cfg s .installRequest).2
        = some (.installRejected "Updates only available in production")
      ↔ (cfg.isPackaged = false ∨ cfg.isDev = true)) ∧
    ((updStep cfg s .checkTrigger).2
        = some (.checkSkipped "Development mode")
      ↔ cfg.isPackaged = false) ∧
    (updStep cfg s .downloadRequest).1
      = (if cfg.isPackaged = false ∨ cfg.isDev = true then s
          else { s with downloadStarted := true }) ∧
    (updStep cfg s .installRequest).1
      = (if cfg.isPackaged = false ∨ cfg.isDev = true then s
          else { s with installCalled := true }) := by
  rcases cfg with ⟨p, d⟩
  cases p <;> cases d <;> cases hc : s.checking <;>
    simp_all [updStep]

lemma cleanup_noLive (env : KillEnv) (s : ProcState)
    (hb : livePid s.backendProcess = none)
    (hs : livePid s.scannerProcess = none) :
    cleanupProcesses env s = { state := s, outcome := .ok (), actions := [] } := by
  simp [cleanupProcesses, hb, hs]

lemma cleanup_clears (env : KillEnv) (s : ProcState) :
    livePid (cleanupProcesses env s).state.backendProcess = none ∧
      livePid (cleanupProcesses env s).state.scannerProcess = none := by
  rcases s with ⟨b, sc⟩
  cases hb : livePid b <;> cases hs : livePid sc <;>
    simp [cleanupProcesses, hb, hs] <;> simp [livePid]

lemma cleanupSeq_fixed (s : ProcState) (envs : List KillEnv)
    (hb : livePid s.backendProcess = none)
    (hs : livePid s.scannerProcess = none) :
    cleanupSeq s envs = s := by
  induction envs with
  | nil => rfl
  | cons env envs ih =>
      simp [cleanupSeq, cleanup_noLive env s hb hs, ih]

/-- C6 as stated is false on the code: `killProcessTree` has only two
stages, not three.  On Windows, when the `taskkill` tree-kill throws, the
`catch` goes directly to the best-effort `SIGKILL` — there is no
intermediate direct-signal stage; and on non-Windows platforms the first
attempt is a plain `SIGTERM` to the single pid, not a tree-kill.  With
every kill call failing on Windows, the attempt sequence is
`[treeKill, sigkill]`, not the claimed `[treeKill, sigterm, sigkill]`. -/
theorem C6_counterexample :
    (killProcessTree ⟨.win32, true, true, true⟩ 1).actions
        = [.treeKill 1, .sigkill 1] ∧
      (killProcessTree ⟨.win32, true, true, true⟩ 1).actions
        ≠ [.treeKill 1, .sigterm 1, .sigkill 1] ∧
      (killProcessTree ⟨.other, true, true, true⟩ 1).actions
        = [.sigterm 1, .sigkill 1] := by
  decide

/-- C6 amended: stopping a managed process escalates through at most two
attempts — on Windows a forceful `taskkill` tree-kill, on other platforms
a direct `SIGTERM`, followed by a final best-effort `SIGKILL` exactly
when that first call fails — and every failing stage logs one warning
while no exception ever escapes to the caller. -/
theorem C6_two_stage_escalation (env : KillEnv) (pid : Nat)
    (h : pid ≠ 0) :
    (killProcessTree env pid).outcome = Except.ok () ∧
    (killProcessTree env pid).actions
      = (match env.plat with
          | .win32 =>
              KillAction.treeKill pid ::
                (if env.treeKillFails = true then [KillAction.sigkill pid]
                  else [])
          | .other =>
              KillAction.sigterm pid ::
                (if env.sigtermFails = true then [KillAction.sigkill pid]
                  else [])) ∧
    (killProcessTree env pid).warnings.length
      = (match env.plat with
          | .win32 =>
              if env.treeKillFails = true then
                (if env.sigkillFails = true then 2 else 1)
              else 0
          | .other =>
              if env.sigtermFails = true then
                (if env.sigkillFails = true then 2 else 1)
              else 0) := by
  rcases env with ⟨p, tf, sf, kf⟩
  cases p <;> cases tf <;> cases sf <;> cases kf <;>
    simp [killProcessTree, execTaskkill, procKillTerm, procKillKill, h]

/-- Witness for C6: all stages failing on Windows. -/
theorem C6_two_stage_escalation_witness :
    (1 : Nat) ≠ 0 ∧
      (killProcessTree ⟨.win32, true, false, true⟩ 1).outcome
        = Except.ok () := by
  refine ⟨by decide, ?_⟩
  exact (C6_two_stage_escalation ⟨.win32, true, false, true⟩ 1
    (by decide)).1

lemma hexChar_mem (n : Nat) : SHA256.hexChar n ∈ hexDigits := by
  have h : n % 16 < 16 := Nat.mod_lt _ (by norm_num)
  unfold SHA256.hexChar
  generalize n % 16 = m at h ⊢
  interval_cases m <;> decide

lemma upper_of_hex (c : Char) (h : c ∈ hexDigits) :
    c.toUpper ∈ upperHexDigits := by
  fin_cases h <;> decide

lemma sha256HexChars_length (m : List Nat) :
    (SHA256.sha256HexChars m).length = 64 := by
  simp [SHA256.sha256HexChars, SHA256.sha256, SHA256.hexWord]

lemma hexWord_mem (w : Nat) :
    ∀ c ∈ SHA256.hexWord w, c ∈ hexDigits := by
  simp only [SHA256.hexWord, List.mem_cons, List.not_mem_nil, or_false]
  intro c hc
  rcases hc with h | h | h | h | h | h | h | h <;>
    (subst h; exact hexChar_mem _)

lemma sha256HexChars_mem (m : List Nat) :
    ∀ c ∈ SHA256.sha256HexChars m, c ∈ hexDigits := by
  simp only [SHA256.sha256HexChars, SHA256.sha256, List.map_cons,
    List.map_nil, List.flatten_cons, List.flatten_nil, List.append_nil,
    List.mem_append]
  intro c hc
  rcases hc with h | h | h | h | h | h | h | h <;>
    exact hexWord_mem _ c h

/-- C8: for every combination of outcomes of the three independent OS
queries, `hardware:getId` returns the first 16 characters, uppercased,
of the SHA-256 hex digest of `` `${uuid}|${baseboard}|${mac}` ``, where a
query that threw contributes the empty string for its field; the result
is always a 16-character string of uppercase hex digits, and identical
query outcomes give the identical value (the embedding is a pure
function of the query outcomes). -/
theorem C8_hardware_short_id (env : HwEnv) :
    hardwareGetId env
        = jsToUpperCase (jsSubstringTo (sha256Hex
            (hwField env.uuidRaw ++ "|" ++ hwField env.baseboardRaw
              ++ "|" ++ hwField env.macRaw)) 16) ∧
      (hardwareGetId env).length = 16 ∧
      (hardwareGetId env).data.all (fun c => upperHexDigits.contains c)
        = true ∧
      hardwareGetId ⟨env.uuidRaw, env.baseboardRaw, env.macRaw⟩
        = hardwareGetId env := by
  have hlen : (getHardwareInfo env).fpHash.data.length = 64 :=
    sha256HexChars_length _
  refine ⟨rfl, ?_, ?_, rfl⟩
  · show (List.map Char.toUpper
        ((getHardwareInfo env).fpHash.data.take 16)).length = 16
    simp [List.length_take, hlen]
  · show (List.map Char.toUpper
          ((getHardwareInfo env).fpHash.data.take 16)).all
        (fun c => upperHexDigits.contains c) = true
    rw [List.all_eq_true]
    intro c hc
    rw [List.mem_map] at hc
    obtain ⟨c0, hc0, rfl⟩ := hc
    have hc' : c0 ∈ (getHardwareInfo env).fpHash.data :=
      List.mem_of_mem_take hc0
    have h1 : c0 ∈ hexDigits := sha256HexChars_mem _ c0 hc'
    have h2 : c0.toUpper ∈ upperHexDigits := upper_of_hex c0 h1
    simpa using h2

/-- C5 as stated is false on the code in one corner: `cleanupProcesses`
guards each slot with `if (backendProcess && backendProcess.pid)`, so a
stored `ChildProcess` whose `pid` is undefined (a spawn that failed,
before its `error` event has nulled the variable) is skipped and the
handle remains stored after the call. -/
theorem C5_counterexample :
    (cleanupProcesses ⟨.win32, false, false, false⟩
        ⟨some 0, none⟩).state.backendProcess ≠ none := by
  decide

/-- C5 amended: `cleanupProcesses` never lets an exception propagate, is
a no-op when no live process is stored, leaves no handle with a truthy
pid stored after any call (a handle whose pid is unset — a failed spawn
not yet cleared by its `error` event — is skipped and remains), and is
idempotent: any second call, and any further sequence of calls under any
OS outcomes, attempts no kill and leaves the state unchanged. -/
theorem C5_cleanup_idempotent_safe (env env2 : KillEnv)
    (envs : List KillEnv) (s : ProcState) :
    (cleanupProcesses env s).outcome = Except.ok () ∧
    livePid (cleanupProcesses env s).state.backendProcess = none ∧
    livePid (cleanupProcesses env s).state.scannerProcess = none ∧
    (livePid s.backendProcess = none ∧ livePid s.scannerProcess = none →
      cleanupProcesses env s
        = { state := s, outcome := .ok (), actions := [] }) ∧
    cleanupProcesses env2 (cleanupProcesses env s).state
      = { state := (cleanupProcesses env s).state, outcome := .ok ()
          actions := [] } ∧
    cleanupSeq (cleanupProcesses env s).state envs
      = (cleanupProcesses env s).state := by
  obtain ⟨hb, hs⟩ := cleanup_clears env s
  refine ⟨rfl, hb, hs, ?_, ?_, ?_⟩
  · intro ⟨hb0, hs0⟩
    exact cleanup_noLive env s hb0 hs0
  · exact cleanup_noLive env2 _ hb hs
  · exact cleanupSeq_fixed _ envs hb hs

lemma backendEvents_clear (l : List BackendEvent) (h : Option Nat)
    (hne : l ≠ []) : l.foldl applyBackendEvent h = none := by
  induction l generalizing h with
  | nil => simp at hne
  | cons e l ih =>
      cases l with
      | nil => cases e <;> simp [applyBackendEvent]
      | cons e2 l2 =>
          rw [List.foldl_cons]
          exact ih _ (by simp)

/-- C10: `startBackend` never rejects — for every spawn outcome and every
sequence of child `error`/`close` events, the promise resolves after the
fixed 3000 ms delay without inspecting the child, and any spawn error or
exit merely clears the stored handle. -/
theorem C10_startBackend_never_rejects (env : BackendEnv) :
    (startBackend env).rejectCalled = false ∧
      (startBackend env).resolveDelayMs = 3000 ∧
      (startBackend env).handle
        = (if env.events.isEmpty then some env.spawnPid else none) := by
  refine ⟨rfl, rfl, ?_⟩
  cases he : env.events with
  | nil => simp [startBackend, he]
  | cons e l =>
      simp only [startBackend, he, List.isEmpty_cons, Bool.false_eq_true,
        if_false]
      exact backendEvents_clear (e :: l) (some env.spawnPid) (by simp)

/-- C3 as stated is false on the code in its last conjunct: when the
backend health probe never succeeds, the outer `catch` shows the blocking
error dialog and returns before the window is created, but it terminates
via `app.quit()`, which exits with the default status 0 — not a non-zero
exit status. -/
theorem C3_counterexample :
    (createWindow ⟨true, false⟩).dialogShown = true ∧
      (createWindow ⟨true, false⟩).windowCreated = false ∧
      (createWindow ⟨true, false⟩).exitCode = some 0 := by
  decide

/-- C3 amended: if the mandatory backend health probe never succeeds
within its timeout, startup shows the blocking error dialog, does not
create the window, and terminates the process via `app.quit()` with the
default exit status 0. -/
theorem C3_backend_failure_fatal (env : StartupEnv)
    (h : env.backendProbeOk = false) :
    (createWindow env).dialogShown = true ∧
      (createWindow env).windowCreated = false ∧
      (createWindow env).exitCode = some 0 ∧
      StartAction.createBrowserWindow ∉ (createWindow env).trace := by
  rcases env with ⟨so, bo⟩
  cases so <;> simp_all <;> decide

/-- Witness for C3: a startup whose backend probe fails. -/
theorem C3_backend_failure_fatal_witness :
    (StartupEnv.mk true false).backendProbeOk = false ∧
      (createWindow ⟨true, false⟩).dialogShown = true :=
  ⟨by decide, (C3_backend_failure_fatal ⟨true, false⟩ (by decide)).1⟩

/-- C4 as stated is false on the code: in a fully successful startup the
scanner is started and probed *before* the backend readiness wait, not
after it — `createWindow` awaits the scanner block (spawn + 15 s probe)
between `startBackend()` and the backend `waitOn`. -/
theorem C4_counterexample :
    (createWindow ⟨true, true⟩).windowCreated = true ∧
      List.indexOf StartAction.scannerProbe (createWindow ⟨true, true⟩).trace
        < List.indexOf StartAction.backendProbe
            (createWindow ⟨true, true⟩).trace := by
  decide

/-- C4 amended: the backend is started first; the scanner is started and
probed next, *before* (not after) the backend readiness wait; the backend
readiness probe is awaited before window creation, and the window is
created exactly when that probe succeeds; the scanner probe's outcome
does not gate window creation. -/
theorem C4_startup_ordering (env : StartupEnv) :
    (createWindow env).trace.head? = some .backendSpawn ∧
      List.indexOf StartAction.backendSpawn (createWindow env).trace
        < List.indexOf StartAction.scannerSpawn (createWindow env).trace ∧
      List.indexOf StartAction.scannerSpawn (createWindow env).trace
        < List.indexOf StartAction.scannerProbe (createWindow env).trace ∧
      List.indexOf StartAction.scannerProbe (createWindow env).trace
        < List.indexOf StartAction.backendProbe (createWindow env).trace ∧
      ((createWindow env).windowCreated = true ↔ env.backendProbeOk = true) ∧
      ((createWindow env).windowCreated = true →
        List.indexOf StartAction.backendProbe (createWindow env).trace
          < List.indexOf StartAction.createBrowserWindow
              (createWindow env).trace) ∧
      (createWindow env).windowCreated
        = (createWindow ⟨!env.scannerProbeOk, env.backendProbeOk⟩).windowCreated := by
  rcases env with ⟨so, bo⟩
  cases so <;> cases bo <;> decide

/-- Witness for C4: successful startup orders the backend probe before
window creation. -/
theorem C4_startup_ordering_witness :
    (createWindow ⟨true, true⟩).windowCreated = true ∧
      List.indexOf StartAction.backendProbe (createWindow ⟨true, true⟩).trace
        < List.indexOf StartAction.createBrowserWindow
            (createWindow ⟨true, true⟩).trace :=
  ⟨by decide, (C4_startup_ordering ⟨true, true⟩).2.2.2.2.2.1 (by decide)⟩

/-- Witness for C5: a run with both children live, then repeated calls. -/
theorem C5_cleanup_idempotent_safe_witness :
    (livePid (ProcState.mk none none).backendProcess = none ∧
        livePid (ProcState.mk none none).scannerProcess = none) ∧
      cleanupProcesses ⟨.win32, false, false, false⟩ ⟨none, none⟩
        = { state := ⟨none, none⟩, outcome := .ok (), actions := [] } :=
  ⟨⟨by decide, by decide⟩,
    (C5_cleanup_idempotent_safe ⟨.win32, false, false, false⟩
      ⟨.win32, false, false, false⟩ [] ⟨none, none⟩).2.2.2.1
      ⟨by decide, by decide⟩⟩

end RiceApp
